import Mathlib

/-
Verification of the ebs-snapshotter snapshot reconciliation policy.

Shallow embedding of the Go sources:
  * clients/clients.go   (MapSnapshotsToVolumes, SortSnapshotsByStartTime, GetSnapshots)
  * watcher/watcher.go   (WatchSnapshots, createNewEBSSnapshot, removeOldEBSSnapshot)
  * models (VolumeSnapshotConfig, Label)

Modelling conventions:
  * `time.Time` is modelled as `Int`, in seconds.  `t1.Before(t2)` is `t1 < t2`,
    `t1.After(t2)` is `t2 < t1`.  `time.Hour` is 3600 seconds.
  * The watcher samples `time.Now()` per configuration entry; within a single
    cycle evaluation we pass one fixed `now : Int` (the claims all speak of a
    single instant `now`).
  * The EC2 client is an external collaborator.  Its fallible calls are
    modelled by oracles: `createOk : String → Bool` (outcome of
    `CreateSnapshot`, keyed by volume id) and `removeOk : String → Bool`
    (outcome of `RemoveSnapshot`, keyed by snapshot id).  Fetch results are
    `Except String _` values, errors carrying the underlying message.
  * Prometheus counter increments, `CreateSnapshot` calls and `RemoveSnapshot`
    calls are recorded as an event trace (`Event`), in execution order.
    `errors.Wrap(err, msg)` yields the message `msg ++ ": " ++ err`.
  * A nil-pointer dereference (Go runtime panic) is modelled explicitly: the
    offending function's outcome is `panicked` and the cycle aborts with
    result `CycleResult.panicked` (no value is returned by `WatchSnapshots`).
  * Go map iteration order is not specified; the volume map is therefore
    modelled as the list of its entries in an arbitrary enumeration order,
    and the snapshot index as a function from volume id to the (possibly
    empty) group, exactly how `snapshots[*volume.VolumeId]` behaves.
-/

namespace EbsSnapshotter

/-- An EC2 tag, from `ec2.Tag` (fields `Key`, `Value`). -/
structure Tag where
  key : String
  value : String
deriving DecidableEq

/-- An EBS volume, from `ec2.Volume`: its id and its tag list. -/
structure Volume where
  volumeId : String
  tags : List Tag
deriving DecidableEq

/-- An EBS snapshot, from `ec2.Snapshot`: id, owning volume id, start time and
state string (for example "pending", "completed", "error"). -/
structure Snap where
  snapshotId : String
  volumeId : String
  startTime : Int
  state : String
deriving DecidableEq

/-- A configured label selector, from `models.Label`. -/
structure Label where
  key : String
  value : String
deriving DecidableEq

/-- One configuration entry, from `models.VolumeSnapshotConfig`:
a label selector, a freshness interval in seconds and a retention period
in hours. -/
structure VolumeSnapshotConfig where
  labels : Label
  intervalSeconds : Int
  retentionPeriodHours : Int
deriving DecidableEq

/-- Observable actions of one reconciliation cycle, in execution order:
calls into the EC2 client mutation capabilities and increments of the
three prometheus counters (each labeled with the matched tag value,
as in `WithLabelValues(*tag)`). -/
inductive Event where
  | createCall (volumeId : String)
  | removeCall (snapshotId : String)
  | crInc (tag : String)
  | delInc (tag : String)
  | errInc (tag : String)
deriving DecidableEq

/-- True exactly on `Event.createCall` events. -/
def Event.isCreateCall : Event → Bool
  | .createCall _ => true
  | _ => false

/-- True exactly on `Event.removeCall` events. -/
def Event.isRemoveCall : Event → Bool
  | .removeCall _ => true
  | _ => false

/-- True exactly on `Event.errInc` events. -/
def Event.isErrInc : Event → Bool
  | .errInc _ => true
  | _ => false

/-- True exactly on `Event.crInc` events. -/
def Event.isCrInc : Event → Bool
  | .crInc _ => true
  | _ => false

/-- Result of `createNewEBSSnapshot` (watcher.go lines 86-107).
`upToDate`: the guard at line 93 fired, nil returned without creating.
`createFailed`: `CreateSnapshot` errored; error counter bumped, error returned.
`created`: snapshot created, creation counter bumped, nil returned.
`panicked`: `CreateSnapshot` succeeded but the volume had no previous
snapshot, so the success log at line 104 dereferences the nil
`snapshot` pointer (`*snapshot.SnapshotId`) and the goroutine panics. -/
inductive CreateOutcome where
  | upToDate
  | createFailed
  | created
  | panicked
deriving DecidableEq

/-- Embedding of `createNewEBSSnapshot` (watcher.go lines 86-107).
`snapshot` is the `*ec2.Snapshot` argument (None models a nil pointer),
`createOk` the outcome the EC2 client gives this `CreateSnapshot` call,
`tag` the dereferenced `tag *string` argument. Returns the emitted events
and the outcome. -/
def createNewEBSSnapshot (createOk : Bool) (snapshot : Option Snap)
    (volume : Volume) (acceptableStartTime : Int) (tag : String) :
    List Event × CreateOutcome :=
  if (match snapshot with
      | some s => !(s.startTime < acceptableStartTime) && s.state != "error"
      | none => false) then
    ([], .upToDate)
  else if !createOk then
    ([.createCall volume.volumeId, .errInc tag], .createFailed)
  else
    match snapshot with
    | none => ([.createCall volume.volumeId], .panicked)
    | some _ => ([.createCall volume.volumeId, .crInc tag], .created)

/-- Result of `removeOldEBSSnapshot` (watcher.go lines 109-140). -/
inductive RemoveOutcome where
  | retained
  | removeFailed
  | removed
deriving DecidableEq

/-- Embedding of `removeOldEBSSnapshot` (watcher.go lines 109-140).
The snapshot argument is a value: every element of the snapshot index is a
parsed, non-nil `*ec2.Snapshot`, so the source's `snapshot != nil` guard is
always true on the watcher's call sites. `removeOk` gives the outcome of the
`RemoveSnapshot` call for a given snapshot id. -/
def removeOldEBSSnapshot (removeOk : String → Bool) (snapshot : Snap)
    (volume : Volume) (retentionStartDate : Int) (tag : String) :
    List Event × RemoveOutcome :=
  if retentionStartDate < snapshot.startTime then
    ([], .retained)
  else if !(removeOk snapshot.snapshotId) then
    ([.removeCall snapshot.snapshotId, .errInc tag], .removeFailed)
  else
    ([.removeCall snapshot.snapshotId, .delInc tag], .removed)

/-- The retention sweep over all snapshots of one volume
(watcher.go lines 71-77): every element of `snapshots[*volume.VolumeId]`
is passed to `removeOldEBSSnapshot`; a failure is only logged, the loop
continues with the next snapshot. -/
def sweepVolume (removeOk : String → Bool) (snaps : List Snap)
    (volume : Volume) (retentionStartDate : Int) (tag : String) : List Event :=
  snaps.flatMap fun s => (removeOldEBSSnapshot removeOk s volume retentionStartDate tag).1

/-- One execution of the matched-tag body (watcher.go lines 59-78):
pick the latest snapshot (`snapshots[*volume.VolumeId][0]` if the group is
non-empty), call `createNewEBSSnapshot`; on error `continue` (skip the
sweep), otherwise run the retention sweep. The Bool is true when the body
panicked (nil dereference inside `createNewEBSSnapshot`). -/
def processTagMatch (createOk removeOk : String → Bool)
    (snapshots : String → List Snap) (volume : Volume)
    (acceptableStartTime retentionStartDate : Int) (tagValue : String) :
    List Event × Bool :=
  let latestSnapshot : Option Snap := (snapshots volume.volumeId).head?
  let c := createNewEBSSnapshot (createOk volume.volumeId) latestSnapshot volume
      acceptableStartTime tagValue
  match c.2 with
  | .createFailed => (c.1, false)
  | .panicked => (c.1, true)
  | _ =>
    (c.1 ++ sweepVolume removeOk (snapshots volume.volumeId) volume retentionStartDate tagValue,
     false)

/-- The tag loop of one volume (watcher.go lines 58-79): the matched-tag
body runs once for every tag whose key and value equal the rule's; a panic
aborts the whole cycle. -/
def processTags (createOk removeOk : String → Bool)
    (snapshots : String → List Snap) (volume : Volume)
    (acceptableStartTime retentionStartDate : Int) (key val : String) :
    List Tag → List Event × Bool
  | [] => ([], false)
  | t :: rest =>
    if t.key == key && t.value == val then
      let r := processTagMatch createOk removeOk snapshots volume
          acceptableStartTime retentionStartDate t.value
      if r.2 then r
      else
        let r2 := processTags createOk removeOk snapshots volume
            acceptableStartTime retentionStartDate key val rest
        (r.1 ++ r2.1, r2.2)
    else
      processTags createOk removeOk snapshots volume
        acceptableStartTime retentionStartDate key val rest

/-- The volume loop of one configuration entry (watcher.go lines 57-80). -/
def processVolumes (createOk removeOk : String → Bool)
    (snapshots : String → List Snap)
    (acceptableStartTime retentionStartDate : Int) (key val : String) :
    List Volume → List Event × Bool
  | [] => ([], false)
  | v :: rest =>
    let r := processTags createOk removeOk snapshots v
        acceptableStartTime retentionStartDate key val v.tags
    if r.2 then r
    else
      let r2 := processVolumes createOk removeOk snapshots
          acceptableStartTime retentionStartDate key val rest
      (r.1 ++ r2.1, r2.2)

/-- The configuration loop (watcher.go lines 51-81): per entry, the
retention cutoff is `now` minus the retention period in hours and the
acceptable start time is `now` minus the interval in seconds. -/
def processConfigs (createOk removeOk : String → Bool)
    (snapshots : String → List Snap) (volumes : List Volume) (now : Int) :
    List VolumeSnapshotConfig → List Event × Bool
  | [] => ([], false)
  | c :: rest =>
    let retentionStartDate := now - c.retentionPeriodHours * 3600
    let acceptableStartTime := now - c.intervalSeconds
    let r := processVolumes createOk removeOk snapshots
        acceptableStartTime retentionStartDate c.labels.key c.labels.value volumes
    if r.2 then r
    else
      let r2 := processConfigs createOk removeOk snapshots volumes now rest
      (r.1 ++ r2.1, r2.2)

/-- How one `WatchSnapshots` cycle ends: a non-nil wrapped fetch error, a
runtime panic (the function never returns), or a normal nil return. -/
inductive CycleResult where
  | error (msg : String)
  | panicked
  | ok
deriving DecidableEq

/-- Embedding of `WatchSnapshots` (watcher.go lines 39-84).
`volumesRes` and `snapshotsRes` are the results of `GetVolumes` and
`GetSnapshots`; the volume map is given as the list of its entries in
iteration order, the snapshot index as a lookup function. Returns the
events emitted before the cycle ended together with how it ended. -/
def WatchSnapshots (createOk removeOk : String → Bool)
    (volumesRes : Except String (List Volume))
    (snapshotsRes : Except String (String → List Snap))
    (configs : List VolumeSnapshotConfig) (now : Int) :
    List Event × CycleResult :=
  match volumesRes with
  | .error e => ([], .error ("error while fetching volumes: " ++ e))
  | .ok volumes =>
    match snapshotsRes with
    | .error e => ([], .error ("error while fetching snapshots: " ++ e))
    | .ok snapshots =>
      let r := processConfigs createOk removeOk snapshots volumes now configs
      (r.1, if r.2 then .panicked else .ok)

/-- Comparator of `SortByStartTime` (clients.go lines 162-164):
`Less(a, b)` is `snap[b].StartTime.Before(*snap[a].StartTime)`, so for the
elements `x = snap[a]` and `y = snap[b]` it is `y.startTime < x.startTime`.
Sorting ascending with this comparator is sorting descending by start time. -/
def snapLess (x y : Snap) : Bool := decide (y.startTime < x.startTime)

/-- Embedding of `MapSnapshotsToVolumes` (clients.go lines 132-144): the map
from volume id to that volume's snapshots in input order. The Go switch
(start a fresh one-element slice when the key is absent, append otherwise)
is, over the empty-list default of the model, uniformly an append. -/
def MapSnapshotsToVolumes (snapshots : List Snap) : String → List Snap :=
  snapshots.foldl
    (fun output snapshot vid =>
      if vid == snapshot.volumeId then output vid ++ [snapshot] else output vid)
    (fun _ => [])

/-- Modelled from the Go standard library's documented contract of
`sort.Sort` (the sort primitive is not part of this repository): the call
rearranges the data into some permutation that is sorted with respect to the
`Less` method — here `snapLess` — and the sort is NOT guaranteed to be
stable (`sort.Stable` exists separately for that).  A function satisfies
this predicate iff it is a conforming implementation of
`SortSnapshotsByStartTime` (clients.go lines 146-149). -/
def IsGoSortForStartTime (sortFn : List Snap → List Snap) : Prop :=
  ∀ l : List Snap, (sortFn l).Perm l ∧ (sortFn l).Chain' (fun x y => snapLess y x = false)

/-- The snapshot index built by `GetSnapshots` (clients.go lines 89-94):
group the fetched snapshots by volume id, then sort each group in place
with `SortSnapshotsByStartTime`, whose sort primitive is `sortFn`. -/
def buildSnapshotIndex (sortFn : List Snap → List Snap) (snapshots : List Snap) :
    String → List Snap :=
  fun vid => sortFn (MapSnapshotsToVolumes snapshots vid)

/-- Placeholder element for out-of-range array reads; never read on the
executions considered. -/
def dummySnap : Snap := ⟨"", "", 0, ""⟩

/-- Read of `snap[i]` in the in-place sorting code. -/
def aget (d : Array Snap) (i : Nat) : Snap := d.getD i dummySnap

/-- The `Swap(a, b)` method of `SortByStartTime` (clients.go lines 158-160). -/
def aswap (d : Array Snap) (i j : Nat) : Array Snap :=
  let x := aget d i
  let y := aget d j
  (d.setD i y).setD j x

/-- The indexed comparison `data.Less(i, j)` with `data = SortByStartTime`. -/
def lessAt (d : Array Snap) (i j : Nat) : Bool := snapLess (aget d i) (aget d j)

/-
Transcription of Go's `sort.Sort` implementation as shipped with the Go
releases contemporary with this repository (Go 1.8 through 1.18: intro-sort
with a shell pass and insertion sort on ranges of at most 12 elements, a
median-of-three / ninther pivoted quicksort above that, and a heap-sort
fallback when the depth budget runs out).  It is used to evaluate the index
at concrete inputs; the generic theorems go through `IsGoSortForStartTime`.
Loops are transcribed with explicit index lists or a fuel argument
(the Go loops terminate because the pivoted range shrinks; the fuel passed
at top level is larger than any possible iteration count).
-/

/-- Inner loop of `insertionSort`:
`for j := i; j > a && data.Less(j, j-1); j-- { data.Swap(j, j-1) }`. -/
def insertInnerGo (a : Nat) : Array Snap → Nat → Array Snap
  | d, 0 => d
  | d, j + 1 =>
    if a < j + 1 && lessAt d (j + 1) j then insertInnerGo a (aswap d (j + 1) j) j else d

/-- `insertionSort(data, a, b)` from Go's sort.go: straight insertion sort
of `data[a:b]`. -/
def insertionSortGo (d : Array Snap) (a b : Nat) : Array Snap :=
  (List.range' (a + 1) (b - (a + 1))).foldl (fun d i => insertInnerGo a d i) d

/-- The shell-sort pass with gap 6 that `quickSort` performs on ranges of at
most 12 elements before the insertion sort:
`for i := a + 6; i < b; i++ { if data.Less(i, i-6) { data.Swap(i, i-6) } }`. -/
def shellPassGo (d : Array Snap) (a b : Nat) : Array Snap :=
  (List.range' (a + 6) (b - (a + 6))).foldl
    (fun d i => if lessAt d i (i - 6) then aswap d i (i - 6) else d) d

/-- `medianOfThree(data, m1, m0, m2)` from Go's sort.go. -/
def medianOfThreeGo (d : Array Snap) (m1 m0 m2 : Nat) : Array Snap :=
  let d := if lessAt d m1 m0 then aswap d m1 m0 else d
  if lessAt d m2 m1 then
    let d := aswap d m2 m1
    if lessAt d m1 m0 then aswap d m1 m0 else d
  else d

/-- The `siftDown(data, lo, hi, first)` loop from Go's sort.go; the fuel
bounds the walk down the heap (the root strictly increases, so `hi` steps
always suffice). -/
def siftDownGo (hi first : Nat) : Nat → Array Snap → Nat → Array Snap
  | 0, d, _ => d
  | fuel + 1, d, root =>
    let child := 2 * root + 1
    if child ≥ hi then d
    else
      let child := if child + 1 < hi && lessAt d (first + child) (first + child + 1)
        then child + 1 else child
      if !lessAt d (first + root) (first + child) then d
      else siftDownGo hi first fuel (aswap d (first + root) (first + child)) child

/-- `heapSort(data, a, b)` from Go's sort.go: build a max-heap on
`data[a:b]`, then repeatedly swap the top to the end and sift down. -/
def heapSortGo (d : Array Snap) (a b : Nat) : Array Snap :=
  let first := a
  let lo := 0
  let hi := b - a
  let d := ((List.range ((hi - 1) / 2 + 1)).reverse).foldl
    (fun d i => siftDownGo hi first hi d i) d
  ((List.range hi).reverse).foldl
    (fun d i => siftDownGo i first hi (aswap d first (first + i)) lo) d

/-- First scanning loop of `doPivot`:
`for ; a < c && data.Less(a, pivot); a++`. -/
def scanOpenA (d : Array Snap) (pivot c : Nat) : Nat → Nat → Nat
  | 0, a => a
  | fuel + 1, a => if a < c && lessAt d a pivot then scanOpenA d pivot c fuel (a + 1) else a

/-- `for ; b < c && !data.Less(pivot, b); b++` inside the partition loop. -/
def scanUpB (d : Array Snap) (pivot c : Nat) : Nat → Nat → Nat
  | 0, b => b
  | fuel + 1, b => if b < c && !lessAt d pivot b then scanUpB d pivot c fuel (b + 1) else b

/-- `for ; b < c && data.Less(pivot, c-1); c--` inside the partition loop. -/
def scanDownC (d : Array Snap) (pivot b : Nat) : Nat → Nat → Nat
  | 0, c => c
  | fuel + 1, c => if b < c && lessAt d pivot (c - 1) then scanDownC d pivot b fuel (c - 1) else c

/-- The main partition loop of `doPivot`: advance `b` over elements at most
the pivot, retreat `c` over elements above it, swap `data[b]` with
`data[c-1]` while the two fronts have not met. -/
def partitionLoopGo (pivot : Nat) : Nat → Array Snap × Nat × Nat → Array Snap × Nat × Nat
  | 0, s => s
  | fuel + 1, (d, b, c) =>
    let b := scanUpB d pivot c (c + 1) b
    let c := scanDownC d pivot b (c + 1) c
    if b ≥ c then (d, b, c)
    else partitionLoopGo pivot fuel (aswap d b (c - 1), b + 1, c - 1)

/-- `for ; a < b && !data.Less(b-1, pivot); b--` inside the duplicate
protection loop. -/
def scanDownB (d : Array Snap) (pivot a : Nat) : Nat → Nat → Nat
  | 0, b => b
  | fuel + 1, b =>
    if a < b && !lessAt d (b - 1) pivot then scanDownB d pivot a fuel (b - 1) else b

/-- `for ; a < b && data.Less(a, pivot); a++` inside the duplicate
protection loop. -/
def scanUpA (d : Array Snap) (pivot b : Nat) : Nat → Nat → Nat
  | 0, a => a
  | fuel + 1, a => if a < b && lessAt d a pivot then scanUpA d pivot b fuel (a + 1) else a

/-- The duplicate-protection loop of `doPivot`. -/
def protectLoopGo (pivot : Nat) : Nat → Array Snap × Nat × Nat → Array Snap × Nat × Nat
  | 0, s => s
  | fuel + 1, (d, a, b) =>
    let b := scanDownB d pivot a (b + 1) b
    let a := scanUpA d pivot b (b + 1) a
    if a ≥ b then (d, a, b)
    else protectLoopGo pivot fuel (aswap d a (b - 1), a + 1, b - 1)

/-- `doPivot(data, lo, hi)` from Go's sort.go: choose a pivot by
median-of-three (ninther above 40 elements), three-way partition
`data[lo:hi]`, and return the array together with `(midlo, midhi)`. -/
def doPivotGo (d : Array Snap) (lo hi : Nat) : Array Snap × Nat × Nat :=
  let m := (lo + hi) / 2
  let d := if hi - lo > 40 then
      let s := (hi - lo) / 8
      let d := medianOfThreeGo d lo (lo + s) (lo + 2 * s)
      let d := medianOfThreeGo d m (m - s) (m + s)
      medianOfThreeGo d (hi - 1) (hi - 1 - s) (hi - 1 - 2 * s)
    else d
  let d := medianOfThreeGo d lo m (hi - 1)
  let pivot := lo
  let a := scanOpenA d pivot (hi - 1) hi (lo + 1)
  let r := partitionLoopGo pivot hi (d, a, hi - 1)
  let d := r.1
  let b := r.2.1
  let c := r.2.2
  let protect := decide (hi - c < 5)
  let r2 :=
    if !protect && decide (hi - c < (hi - lo) / 4) then
      let dups := 0
      let r3 := if !lessAt d pivot (hi - 1) then (aswap d c (hi - 1), c + 1, dups + 1)
        else (d, c, dups)
      let d := r3.1
      let c := r3.2.1
      let dups := r3.2.2
      let r4 := if !lessAt d (b - 1) pivot then (b - 1, dups + 1) else (b, dups)
      let b := r4.1
      let dups := r4.2
      let r5 := if !lessAt d m pivot then (aswap d m (b - 1), b - 1, dups + 1)
        else (d, b, dups)
      let d := r5.1
      let b := r5.2.1
      let dups := r5.2.2
      (d, b, c, decide (dups > 1))
    else (d, b, c, protect)
  let d := r2.1
  let b := r2.2.1
  let c := r2.2.2.1
  let protect := r2.2.2.2
  let r6 := if protect then protectLoopGo pivot hi (d, a, b) else (d, a, b)
  let d := r6.1
  let b := r6.2.2
  let d := aswap d pivot (b - 1)
  (d, b - 1, c)

/-- `quickSort(data, a, b, maxDepth)` from Go's sort.go, with the
tail-recursive `for b-a > 12` loop unfolded into recursion (each loop
iteration decrements `maxDepth` and continues on the half not recursed
into, which is exactly a recursive call at the decremented depth). -/
def quickSortGo : Nat → Array Snap → Nat → Nat → Nat → Array Snap
  | 0, d, _, _, _ => d
  | fuel + 1, d, a, b, maxDepth =>
    if b - a > 12 then
      if maxDepth = 0 then heapSortGo d a b
      else
        let p := doPivotGo d a b
        let d := p.1
        let mlo := p.2.1
        let mhi := p.2.2
        if mlo - a < b - mhi then
          let d := quickSortGo fuel d a mlo (maxDepth - 1)
          quickSortGo fuel d mhi b (maxDepth - 1)
        else
          let d := quickSortGo fuel d mhi b (maxDepth - 1)
          quickSortGo fuel d a mlo (maxDepth - 1)
    else if b - a > 1 then
      insertionSortGo (shellPassGo d a b) a b
    else d

/-- `maxDepth(n)` from Go's sort.go: twice the number of halvings that
bring `n` to zero. -/
def maxDepthGo (n : Nat) : Nat := 2 * (Nat.log2 n + if n = 0 then 0 else 1)

/-- `sort.Sort(SortByStartTime(snapshots))` with the classic Go
implementation: the concrete behaviour of `SortSnapshotsByStartTime`
(clients.go lines 146-149) under the Go toolchains contemporary with this
repository.  The fuel passed to `quickSortGo` exceeds any possible number
of loop iterations and recursive calls. -/
def sortSortClassic (l : List Snap) : List Snap :=
  let d := l.toArray
  (quickSortGo (4 * d.size + 64) d 0 d.size (maxDepthGo d.size)).toList

/-- Stable insertion of a snapshot into a start-time-descending list: the
inserted element goes before the first element of equal or older start
time, so it precedes equal-time elements that came later in the input.
Spec-side helper for the stable descending order the specification
asserts. -/
def insertDescStable (x : Snap) : List Snap → List Snap
  | [] => [x]
  | y :: ys =>
    if y.startTime ≤ x.startTime then x :: y :: ys else y :: insertDescStable x ys

/-- Modelled from the spec: the sort contract §4.1 claims — "strict
descending order by start timestamp; stable with respect to input order for
equal timestamps" — read as the stable descending sort of the group. -/
def specStableDescSort : List Snap → List Snap
  | [] => []
  | x :: xs => insertDescStable x (specStableDescSort xs)

/-- One concrete conforming implementation of the `sort.Sort` contract
(`IsGoSortForStartTime`), used to instantiate the generic theorems:
a plain stable insertion sort into descending start-time order. -/
def sortModel : List Snap → List Snap := specStableDescSort

/-
Helper lemmas about the snapshot index.
-/

/-- Unfolding of the grouping fold: the accumulated group of `vid` is the
already accumulated part followed by the matching part of the remaining
input. -/
theorem mapSnapshotsToVolumes_foldl (snaps : List Snap) (acc : String → List Snap)
    (vid : String) :
    (snaps.foldl
        (fun output snapshot v =>
          if v == snapshot.volumeId then output v ++ [snapshot] else output v)
        acc) vid =
      acc vid ++ snaps.filter (fun s => s.volumeId == vid) := by
  induction snaps generalizing acc with
  | nil => simp
  | cons s rest ih =>
    simp only [List.foldl_cons, List.filter_cons]
    rw [ih]
    by_cases h : s.volumeId = vid
    · subst h
      simp
    · have h1 : (vid == s.volumeId) = false := by
        simp [Ne.symm h]
      have h2 : (s.volumeId == vid) = false := by
        simp [h]
      simp [h1, h2]

/-- `MapSnapshotsToVolumes` groups exactly: the group of a volume id is the
subsequence of input snapshots owned by it, in input order. -/
theorem mapSnapshotsToVolumes_eq_filter (snaps : List Snap) (vid : String) :
    MapSnapshotsToVolumes snaps vid = snaps.filter (fun s => s.volumeId == vid) := by
  unfold MapSnapshotsToVolumes
  rw [mapSnapshotsToVolumes_foldl]
  simp

/-- Inserting into a list permutes to consing. -/
theorem insertDescStable_perm (x : Snap) (l : List Snap) :
    (insertDescStable x l).Perm (x :: l) := by
  induction l with
  | nil => simp [insertDescStable]
  | cons y ys ih =>
    simp only [insertDescStable]
    split
    · exact List.Perm.refl _
    · exact (ih.cons y).trans (List.Perm.swap x y ys)

/-- The stable descending sort is a permutation of its input. -/
theorem specStableDescSort_perm (l : List Snap) : (specStableDescSort l).Perm l := by
  induction l with
  | nil => exact List.Perm.refl _
  | cons x xs ih =>
    exact (insertDescStable_perm x (specStableDescSort xs)).trans (ih.cons x)

/-- The head of an insertion is the inserted element or the old head. -/
theorem insertDescStable_head (x : Snap) (l : List Snap) :
    (insertDescStable x l).head? = some x ∨ (insertDescStable x l).head? = l.head? := by
  cases l with
  | nil => left; rfl
  | cons y ys =>
    simp only [insertDescStable]
    split
    · left; rfl
    · right; rfl

/-- Inserting preserves the non-increasing adjacency invariant. -/
theorem insertDescStable_chain (x : Snap) (l : List Snap)
    (h : l.Chain' (fun a b => snapLess b a = false)) :
    (insertDescStable x l).Chain' (fun a b => snapLess b a = false) := by
  induction l with
  | nil => simp [insertDescStable]
  | cons y ys ih =>
    rw [List.chain'_cons'] at h
    simp only [insertDescStable]
    split
    · rename_i hyx
      rw [List.chain'_cons']
      constructor
      · intro z hz
        simp only [List.head?_cons, Option.mem_def, Option.some.injEq] at hz
        subst hz
        simp only [snapLess, decide_eq_false_iff_not, not_lt]
        exact hyx
      · rw [List.chain'_cons']
        exact h
    · rename_i hyx
      rw [List.chain'_cons']
      constructor
      · intro z hz
        rcases insertDescStable_head x ys with h1 | h1
        · rw [h1] at hz
          simp only [Option.mem_def, Option.some.injEq] at hz
          subst hz
          simp only [snapLess, decide_eq_false_iff_not, not_lt]
          omega
        · rw [h1] at hz
          exact h.1 z hz
      · exact ih h.2

/-- The stable descending sort satisfies the non-increasing adjacency
invariant. -/
theorem specStableDescSort_chain (l : List Snap) :
    (specStableDescSort l).Chain' (fun a b => snapLess b a = false) := by
  induction l with
  | nil => simp [specStableDescSort]
  | cons x xs ih => exact insertDescStable_chain x _ ih

/-- `sortModel` is a conforming implementation of the `sort.Sort`
contract for the start-time comparator. -/
theorem sortModel_isGoSort : IsGoSortForStartTime sortModel :=
  fun l => ⟨specStableDescSort_perm l, specStableDescSort_chain l⟩

/-
Claim C4.
-/

/-- Two snapshots of one volume with equal start times: no ordering of the
group is strictly descending. -/
def snapsEqualPair : List Snap :=
  [⟨"snap-a", "vol-1", 5, "ok"⟩, ⟨"snap-b", "vol-1", 5, "ok"⟩]

/-- Seven snapshots of one volume with one duplicated start time; the gap-6
shell pass of the classic `sort.Sort` swaps the later duplicate (index 6)
in front of the earlier one (index 1). -/
def snapsShellSwap : List Snap :=
  [⟨"s0", "vol-1", 1, "ok"⟩, ⟨"s1", "vol-1", 5, "ok"⟩, ⟨"s2", "vol-1", 4, "ok"⟩,
   ⟨"s3", "vol-1", 3, "ok"⟩, ⟨"s4", "vol-1", 2, "ok"⟩, ⟨"s5", "vol-1", 0, "ok"⟩,
   ⟨"s6", "vol-1", 5, "ok"⟩]

/-- Claim C4 counterexample: with the sort primitive behaving as the Go
implementations contemporary with this repository, the Snapshot Index is
neither strictly descending (two equal start times in one group) nor stable
for equal timestamps (on `snapsShellSwap` the group comes out
`s6, s1, ...` although `s1` came first in the input, differing from the
stable descending order). -/
theorem c4_counterexample :
    ¬ (buildSnapshotIndex sortSortClassic snapsEqualPair "vol-1").Chain'
        (fun x y => y.startTime < x.startTime) ∧
    buildSnapshotIndex sortSortClassic snapsShellSwap "vol-1" ≠
      specStableDescSort (snapsShellSwap.filter (fun s => s.volumeId == "vol-1")) := by
  constructor
  · intro h
    have heval : buildSnapshotIndex sortSortClassic snapsEqualPair "vol-1" =
        [⟨"snap-a", "vol-1", 5, "ok"⟩, ⟨"snap-b", "vol-1", 5, "ok"⟩] := by rfl
    rw [heval] at h
    rw [List.chain'_cons] at h
    exact absurd h.1 (by simp)
  · intro h
    have heval : buildSnapshotIndex sortSortClassic snapsShellSwap "vol-1" =
        [⟨"s6", "vol-1", 5, "ok"⟩, ⟨"s1", "vol-1", 5, "ok"⟩, ⟨"s2", "vol-1", 4, "ok"⟩,
         ⟨"s3", "vol-1", 3, "ok"⟩, ⟨"s4", "vol-1", 2, "ok"⟩, ⟨"s0", "vol-1", 1, "ok"⟩,
         ⟨"s5", "vol-1", 0, "ok"⟩] := by rfl
    have hspec : specStableDescSort (snapsShellSwap.filter (fun s => s.volumeId == "vol-1")) =
        [⟨"s1", "vol-1", 5, "ok"⟩, ⟨"s6", "vol-1", 5, "ok"⟩, ⟨"s2", "vol-1", 4, "ok"⟩,
         ⟨"s3", "vol-1", 3, "ok"⟩, ⟨"s4", "vol-1", 2, "ok"⟩, ⟨"s0", "vol-1", 1, "ok"⟩,
         ⟨"s5", "vol-1", 0, "ok"⟩] := by rfl
    rw [heval, hspec] at h
    exact absurd h (by decide)

/-- Claim C4 (amended): for every input list of snapshots and every sort
primitive meeting Go's documented `sort.Sort` contract (sorted per the
comparator, stability not guaranteed), the Snapshot Index places each
snapshot in the group keyed by its owning volume id and in no other group
— each group is a permutation of that volume's snapshots — and each group
is in non-increasing start-time order; the relative order of snapshots
with equal start times is unspecified. -/
theorem c4_amended_snapshot_index (sortFn : List Snap → List Snap)
    (hsort : IsGoSortForStartTime sortFn) (snapshots : List Snap) (vid : String) :
    (buildSnapshotIndex sortFn snapshots vid).Perm
        (snapshots.filter (fun s => s.volumeId == vid)) ∧
    (∀ s ∈ buildSnapshotIndex sortFn snapshots vid, s.volumeId = vid) ∧
    (buildSnapshotIndex sortFn snapshots vid).Chain'
        (fun x y => y.startTime ≤ x.startTime) := by
  have hperm : (buildSnapshotIndex sortFn snapshots vid).Perm
      (snapshots.filter (fun s => s.volumeId == vid)) := by
    unfold buildSnapshotIndex
    rw [mapSnapshotsToVolumes_eq_filter]
    exact (hsort _).1
  refine ⟨hperm, ?_, ?_⟩
  · intro s hs
    have := hperm.mem_iff.mp hs
    have := List.of_mem_filter this
    simpa using this
  · have := (hsort (MapSnapshotsToVolumes snapshots vid)).2
    unfold buildSnapshotIndex
    refine this.imp ?_
    intro a b hab
    simpa [snapLess, decide_eq_false_iff_not, not_lt] using hab

/-- Claim C4 witness: the amended theorem applied to the conforming model
sort at a concrete input. -/
theorem c4_amended_witness :
    (buildSnapshotIndex sortModel
        [⟨"s1", "v", 5, "ok"⟩, ⟨"s2", "w", 9, "ok"⟩, ⟨"s3", "v", 7, "ok"⟩] "v").Perm
        ([⟨"s1", "v", 5, "ok"⟩, ⟨"s2", "w", 9, "ok"⟩,
          ⟨"s3", "v", 7, "ok"⟩].filter (fun s => s.volumeId == "v")) ∧
    (∀ s ∈ buildSnapshotIndex sortModel
        [⟨"s1", "v", 5, "ok"⟩, ⟨"s2", "w", 9, "ok"⟩, ⟨"s3", "v", 7, "ok"⟩] "v",
      s.volumeId = "v") ∧
    (buildSnapshotIndex sortModel
        [⟨"s1", "v", 5, "ok"⟩, ⟨"s2", "w", 9, "ok"⟩, ⟨"s3", "v", 7, "ok"⟩] "v").Chain'
        (fun x y => y.startTime ≤ x.startTime) :=
  c4_amended_snapshot_index sortModel sortModel_isGoSort
    [⟨"s1", "v", 5, "ok"⟩, ⟨"s2", "w", 9, "ok"⟩, ⟨"s3", "v", 7, "ok"⟩] "v"

/-
Helper lemmas about the watcher.
-/

/-- Modelled from the claims' creation condition: a new snapshot is due
when the volume has no snapshot, or the latest one started before the
acceptable start time, or the latest one is in state "error". -/
def specShouldCreate (latest : Option Snap) (acceptableStartTime : Int) : Bool :=
  match latest with
  | none => true
  | some s => decide (s.startTime < acceptableStartTime) || s.state == "error"

/-- The create path emits exactly one `CreateSnapshot` call when a snapshot
is due and none otherwise. -/
theorem createNew_countP_createCall (createOk : Bool) (snapshot : Option Snap)
    (volume : Volume) (acc : Int) (tag : String) :
    (createNewEBSSnapshot createOk snapshot volume acc tag).1.countP Event.isCreateCall =
      if specShouldCreate snapshot acc then 1 else 0 := by
  cases snapshot with
  | none =>
    cases createOk <;>
      simp [createNewEBSSnapshot, specShouldCreate, Event.isCreateCall, List.countP_cons]
  | some s =>
    by_cases hlt : s.startTime < acc <;> by_cases hst : s.state = "error" <;>
      cases createOk <;>
        simp [createNewEBSSnapshot, specShouldCreate, hlt, hst, Event.isCreateCall,
          List.countP_cons]

/-- When a snapshot is due and the `CreateSnapshot` call fails, the create
path emits the call and one error-counter increment, and reports failure. -/
theorem createNew_failed (snapshot : Option Snap) (volume : Volume) (acc : Int)
    (tag : String) (h : specShouldCreate snapshot acc = true) :
    createNewEBSSnapshot false snapshot volume acc tag =
      ([.createCall volume.volumeId, .errInc tag], .createFailed) := by
  cases snapshot with
  | none => simp [createNewEBSSnapshot]
  | some s =>
    simp only [specShouldCreate] at h
    by_cases hlt : s.startTime < acc <;> by_cases hst : s.state = "error" <;>
      simp [hlt, hst, createNewEBSSnapshot] <;> simp [hlt, hst] at h

/-- A fresh snapshot is skipped by the retention sweep with no events. -/
theorem removeOld_retained (removeOk : String → Bool) (s : Snap) (volume : Volume)
    (cutoff : Int) (tag : String) (h : cutoff < s.startTime) :
    removeOldEBSSnapshot removeOk s volume cutoff tag = ([], .retained) := by
  simp [removeOldEBSSnapshot, h]

/-- A snapshot at or beyond the retention cutoff gets a `RemoveSnapshot`
call; the second event records the outcome. -/
theorem removeOld_attempted (removeOk : String → Bool) (s : Snap) (volume : Volume)
    (cutoff : Int) (tag : String) (h : s.startTime ≤ cutoff) :
    removeOldEBSSnapshot removeOk s volume cutoff tag =
      if removeOk s.snapshotId
      then ([.removeCall s.snapshotId, .delInc tag], .removed)
      else ([.removeCall s.snapshotId, .errInc tag], .removeFailed) := by
  have h' : ¬ cutoff < s.startTime := not_lt.mpr h
  cases hrem : removeOk s.snapshotId <;> simp [removeOldEBSSnapshot, h', hrem]

/-- The retention sweep never calls `CreateSnapshot`. -/
theorem removeOld_countP_createCall (removeOk : String → Bool) (s : Snap)
    (volume : Volume) (cutoff : Int) (tag : String) :
    (removeOldEBSSnapshot removeOk s volume cutoff tag).1.countP Event.isCreateCall = 0 := by
  by_cases h : cutoff < s.startTime
  · simp [removeOldEBSSnapshot, h]
  · cases hrem : removeOk s.snapshotId <;>
      simp [removeOldEBSSnapshot, h, hrem, Event.isCreateCall, List.countP_cons]

/-- The whole sweep never calls `CreateSnapshot`. -/
theorem sweepVolume_countP_createCall (removeOk : String → Bool) (snaps : List Snap)
    (volume : Volume) (cutoff : Int) (tag : String) :
    (sweepVolume removeOk snaps volume cutoff tag).countP Event.isCreateCall = 0 := by
  induction snaps with
  | nil => rfl
  | cons s rest ih =>
    simp only [sweepVolume, List.flatMap_cons, List.countP_append] at ih ⊢
    rw [removeOld_countP_createCall, ih]

/-
Claim C1.
-/

/-- Claim C1: in one volume-and-rule evaluation, the `CreateSnapshot`
capability is invoked exactly once if the volume has no snapshot, or its
latest snapshot started before `now - interval`, or its latest snapshot is
in state "error"; otherwise (fresh, non-error latest snapshot) it is not
invoked at all. -/
theorem c1_create_call_iff (createOk removeOk : String → Bool)
    (snapshots : String → List Snap) (volume : Volume)
    (acceptableStartTime retentionStartDate : Int) (tagValue : String) :
    (processTagMatch createOk removeOk snapshots volume acceptableStartTime
        retentionStartDate tagValue).1.countP Event.isCreateCall =
      if specShouldCreate ((snapshots volume.volumeId).head?) acceptableStartTime
      then 1 else 0 := by
  have hc := createNew_countP_createCall (createOk volume.volumeId)
    ((snapshots volume.volumeId).head?) volume acceptableStartTime tagValue
  simp only [processTagMatch]
  split
  · exact hc
  · exact hc
  · simp only [List.countP_append, sweepVolume_countP_createCall, Nat.add_zero]
    exact hc

/-
Claim C2.
-/

/-- Claim C2 counterexample: a snapshot whose start timestamp is exactly
the retention cutoff (hence at-or-after it) still gets a `RemoveSnapshot`
call, contradicting the claimed skip. -/
theorem c2_counterexample :
    ¬ ((⟨"snap-1", "vol-1", 0, "ok"⟩ : Snap).startTime < (0 : Int)) ∧
    (removeOldEBSSnapshot (fun _ => true) ⟨"snap-1", "vol-1", 0, "ok"⟩ ⟨"vol-1", []⟩ 0
        "val").1.countP Event.isRemoveCall = 1 := by
  exact ⟨by decide, by decide⟩

/-- Claim C2 (amended): the sweep examines every snapshot of the volume; a
snapshot whose start timestamp is strictly after `now - retentionPeriod` is
skipped with no delete call, and a snapshot whose start timestamp is at or
before that cutoff has a delete attempted on it and only on it — sibling
snapshots within retention survive. -/
theorem c2_amended_retention (removeOk : String → Bool) (snaps : List Snap)
    (volume : Volume) (retentionStartDate : Int) (tag : String) :
    sweepVolume removeOk snaps volume retentionStartDate tag =
      snaps.flatMap
        (fun s => (removeOldEBSSnapshot removeOk s volume retentionStartDate tag).1) ∧
    ∀ s : Snap,
      (retentionStartDate < s.startTime →
        (removeOldEBSSnapshot removeOk s volume retentionStartDate tag).1 = []) ∧
      (s.startTime ≤ retentionStartDate →
        (removeOldEBSSnapshot removeOk s volume retentionStartDate tag).1.countP
            Event.isRemoveCall = 1 ∧
        ∀ e ∈ (removeOldEBSSnapshot removeOk s volume retentionStartDate tag).1,
          Event.isRemoveCall e = true → e = .removeCall s.snapshotId) := by
  refine ⟨rfl, fun s => ⟨fun h => ?_, fun h => ?_⟩⟩
  · rw [removeOld_retained removeOk s volume retentionStartDate tag h]
  · rw [removeOld_attempted removeOk s volume retentionStartDate tag h]
    cases hrem : removeOk s.snapshotId <;>
      simp [Event.isRemoveCall, List.countP_cons]

/-- Claim C2 witness: the amended theorem at a retention cutoff of 10, an
old snapshot (start 3) and a retained one (start 11). -/
theorem c2_amended_witness :
    (removeOldEBSSnapshot (fun _ => true) ⟨"snap-old", "vol-1", 3, "ok"⟩ ⟨"vol-1", []⟩ 10
        "t").1.countP Event.isRemoveCall = 1 ∧
    (removeOldEBSSnapshot (fun _ => true) ⟨"snap-new", "vol-1", 11, "ok"⟩ ⟨"vol-1", []⟩ 10
        "t").1 = [] :=
  ⟨(((c2_amended_retention (fun _ => true) [] ⟨"vol-1", []⟩ 10 "t").2
      ⟨"snap-old", "vol-1", 3, "ok"⟩).2 (by decide)).1,
   ((c2_amended_retention (fun _ => true) [] ⟨"vol-1", []⟩ 10 "t").2
      ⟨"snap-new", "vol-1", 11, "ok"⟩).1 (by decide)⟩

/-
Claim C3.
-/

/-- When a snapshot is due but `CreateSnapshot` fails, the evaluation stops
after the call and one error increment, skipping the retention sweep. -/
theorem processTagMatch_createFailed (createOk removeOk : String → Bool)
    (snapshots : String → List Snap) (volume : Volume)
    (acceptableStartTime retentionStartDate : Int) (tagValue : String)
    (hfail : createOk volume.volumeId = false)
    (hneed : specShouldCreate ((snapshots volume.volumeId).head?) acceptableStartTime
      = true) :
    processTagMatch createOk removeOk snapshots volume acceptableStartTime
        retentionStartDate tagValue =
      ([.createCall volume.volumeId, .errInc tagValue], false) := by
  have hc := createNew_failed ((snapshots volume.volumeId).head?) volume
    acceptableStartTime tagValue hneed
  simp only [processTagMatch, hfail, hc]

/-- Claim C3: if the `CreateSnapshot` call fails for a matched volume, that
evaluation emits exactly the call and one error-counter increment, and no
`RemoveSnapshot` call is made for that volume under that rule in the whole
tag loop of the cycle. -/
theorem c3_create_failure_no_delete (createOk removeOk : String → Bool)
    (snapshots : String → List Snap) (volume : Volume)
    (acceptableStartTime retentionStartDate : Int) (key val tagValue : String)
    (hfail : createOk volume.volumeId = false)
    (hneed : specShouldCreate ((snapshots volume.volumeId).head?) acceptableStartTime
      = true) :
    processTagMatch createOk removeOk snapshots volume acceptableStartTime
        retentionStartDate tagValue =
      ([.createCall volume.volumeId, .errInc tagValue], false) ∧
    ∀ tags : List Tag,
      (processTags createOk removeOk snapshots volume acceptableStartTime
          retentionStartDate key val tags).1.countP Event.isRemoveCall = 0 := by
  refine ⟨processTagMatch_createFailed createOk removeOk snapshots volume
    acceptableStartTime retentionStartDate tagValue hfail hneed, ?_⟩
  intro tags
  induction tags with
  | nil => rfl
  | cons t rest ih =>
    simp only [processTags]
    by_cases hmatch : (t.key == key && t.value == val) = true
    · have hm := processTagMatch_createFailed createOk removeOk snapshots volume
        acceptableStartTime retentionStartDate t.value hfail hneed
      simp only [hmatch, if_true, hm]
      rw [if_neg (by simp)]
      simp only [List.countP_append, ih, Nat.add_zero]
      rfl
    · simp only [hmatch]
      simpa using ih

/-- Claim C3 witness: one matched volume whose create call fails — the full
trace is the call plus one error increment, and the tag loop over one
matching tag makes no delete call. -/
theorem c3_witness :
    processTagMatch (fun _ => false) (fun _ => true)
        (fun _ => [⟨"snap-1", "vol-1", 0, "ok"⟩]) ⟨"vol-1", [⟨"k", "v"⟩]⟩ 5 0 "v" =
      ([.createCall "vol-1", .errInc "v"], false) ∧
    (processTags (fun _ => false) (fun _ => true)
        (fun _ => [⟨"snap-1", "vol-1", 0, "ok"⟩]) ⟨"vol-1", [⟨"k", "v"⟩]⟩ 5 0 "k" "v"
        [⟨"k", "v"⟩]).1.countP Event.isRemoveCall = 0 :=
  ⟨(c3_create_failure_no_delete (fun _ => false) (fun _ => true)
      (fun _ => [⟨"snap-1", "vol-1", 0, "ok"⟩]) ⟨"vol-1", [⟨"k", "v"⟩]⟩ 5 0 "k" "v" "v"
      rfl (by decide)).1,
   (c3_create_failure_no_delete (fun _ => false) (fun _ => true)
      (fun _ => [⟨"snap-1", "vol-1", 0, "ok"⟩]) ⟨"vol-1", [⟨"k", "v"⟩]⟩ 5 0 "k" "v" "v"
      rfl (by decide)).2 [⟨"k", "v"⟩]⟩

/-
Claim C5.
-/

/-- Claim C5: a failed volume listing makes the cycle return the error
wrapping "error while fetching volumes" with the underlying message and no
events (so no create or remove call) at all; symmetrically a failed
snapshot listing returns the error wrapping "error while fetching
snapshots" with no events. -/
theorem c5_fetch_error_aborts (createOk removeOk : String → Bool)
    (snapshotsRes : Except String (String → List Snap)) (volumes : List Volume)
    (configs : List VolumeSnapshotConfig) (now : Int) (e1 e2 : String) :
    WatchSnapshots createOk removeOk (.error e1) snapshotsRes configs now =
      ([], .error ("error while fetching volumes: " ++ e1)) ∧
    WatchSnapshots createOk removeOk (.ok volumes) (.error e2) configs now =
      ([], .error ("error while fetching snapshots: " ++ e2)) := by
  exact ⟨rfl, rfl⟩

/-
Claim C6.
-/

/-- One sweep step emits an error increment exactly when the snapshot is
eligible and its removal fails. -/
theorem removeOld_countP_errInc (removeOk : String → Bool) (s : Snap) (volume : Volume)
    (cutoff : Int) (tag : String) :
    (removeOldEBSSnapshot removeOk s volume cutoff tag).1.countP Event.isErrInc =
      if decide (s.startTime ≤ cutoff) && !removeOk s.snapshotId then 1 else 0 := by
  by_cases h : cutoff < s.startTime
  · have h2 : ¬ s.startTime ≤ cutoff := not_le.mpr h
    simp [removeOldEBSSnapshot, h, h2]
  · have h2 : s.startTime ≤ cutoff := not_lt.mp h
    cases hrem : removeOk s.snapshotId <;>
      simp [removeOldEBSSnapshot, h, h2, hrem, Event.isErrInc, List.countP_cons]

/-- Claim C6: the retention sweep is never aborted by a failed
`RemoveSnapshot` call — every eligible snapshot of the volume still gets
its delete attempted regardless of other snapshots' outcomes, and each
delete failure increments the error counter (the sweep's error increments
are exactly the eligible snapshots whose removal fails). -/
theorem c6_sweep_not_aborted (removeOk : String → Bool) (snaps : List Snap)
    (volume : Volume) (retentionStartDate : Int) (tag : String) :
    (∀ s ∈ snaps, s.startTime ≤ retentionStartDate →
      Event.removeCall s.snapshotId ∈
        sweepVolume removeOk snaps volume retentionStartDate tag) ∧
    (sweepVolume removeOk snaps volume retentionStartDate tag).countP Event.isErrInc =
      snaps.countP
        (fun s => decide (s.startTime ≤ retentionStartDate) && !removeOk s.snapshotId) := by
  constructor
  · intro s hs hold
    unfold sweepVolume
    rw [List.mem_flatMap]
    refine ⟨s, hs, ?_⟩
    rw [removeOld_attempted removeOk s volume retentionStartDate tag hold]
    cases hrem : removeOk s.snapshotId <;> simp
  · induction snaps with
    | nil => rfl
    | cons s rest ih =>
      simp only [sweepVolume, List.flatMap_cons, List.countP_append, List.countP_cons] at ih ⊢
      rw [removeOld_countP_errInc, ih]
      by_cases hc : (decide (s.startTime ≤ retentionStartDate) && !removeOk s.snapshotId)
        = true
      · simp [hc, Nat.add_comm]
      · simp [hc]

/-- Claim C6 witness: a volume with two eligible snapshots where removing
the first fails — the second is still attempted, and the error counter is
incremented once. -/
theorem c6_witness :
    Event.removeCall "snap-2" ∈
      sweepVolume (fun sid => sid != "snap-1")
        [⟨"snap-1", "vol-1", 1, "ok"⟩, ⟨"snap-2", "vol-1", 2, "ok"⟩]
        ⟨"vol-1", []⟩ 5 "t" ∧
    (sweepVolume (fun sid => sid != "snap-1")
        [⟨"snap-1", "vol-1", 1, "ok"⟩, ⟨"snap-2", "vol-1", 2, "ok"⟩]
        ⟨"vol-1", []⟩ 5 "t").countP Event.isErrInc =
      [(⟨"snap-1", "vol-1", 1, "ok"⟩ : Snap), ⟨"snap-2", "vol-1", 2, "ok"⟩].countP
        (fun s => decide (s.startTime ≤ (5 : Int)) && !(s.snapshotId != "snap-1")) :=
  ⟨(c6_sweep_not_aborted (fun sid => sid != "snap-1")
      [⟨"snap-1", "vol-1", 1, "ok"⟩, ⟨"snap-2", "vol-1", 2, "ok"⟩] ⟨"vol-1", []⟩ 5 "t").1
      ⟨"snap-2", "vol-1", 2, "ok"⟩ (by decide) (by decide),
   (c6_sweep_not_aborted (fun sid => sid != "snap-1")
      [⟨"snap-1", "vol-1", 1, "ok"⟩, ⟨"snap-2", "vol-1", 2, "ok"⟩] ⟨"vol-1", []⟩ 5 "t").2⟩

/-
Claim C7.
-/

/-- Claim C7 (code bug): when a matched volume has no prior snapshot and
`CreateSnapshot` succeeds, the success log line dereferences the nil
`snapshot` pointer (`*snapshot.SnapshotId`, watcher.go line 104) before the
creation counter is incremented: the evaluation panics and the creation
counter is never incremented, contradicting the claimed increment for the
first snapshot ever created. -/
theorem c7_first_create_panics :
    createNewEBSSnapshot true none ⟨"vol-1", [⟨"k", "v"⟩]⟩ 100 "v" =
      ([.createCall "vol-1"], .panicked) ∧
    (createNewEBSSnapshot true none ⟨"vol-1", [⟨"k", "v"⟩]⟩ 100 "v").1.countP
      Event.isCrInc = 0 ∧
    createNewEBSSnapshot true (some ⟨"snap-0", "vol-1", 1, "ok"⟩) ⟨"vol-1", [⟨"k", "v"⟩]⟩
        100 "v" =
      ([.createCall "vol-1", .crInc "v"], .created) := by
  exact ⟨rfl, by decide, by decide⟩

/-
Claim C8.
-/

/-- Claim C8: the retention sweep runs even when creation is skipped
because the latest snapshot is up to date — the evaluation's trace is
exactly the sweep over all of the volume's snapshots, with no panic. -/
theorem c8_sweep_decoupled (createOk removeOk : String → Bool)
    (snapshots : String → List Snap) (volume : Volume)
    (acceptableStartTime retentionStartDate : Int) (tagValue : String) (s : Snap)
    (hlat : (snapshots volume.volumeId).head? = some s)
    (hfresh : ¬ s.startTime < acceptableStartTime) (hstate : s.state ≠ "error") :
    processTagMatch createOk removeOk snapshots volume acceptableStartTime
        retentionStartDate tagValue =
      (sweepVolume removeOk (snapshots volume.volumeId) volume retentionStartDate tagValue,
       false) := by
  have hup : createNewEBSSnapshot (createOk volume.volumeId)
      ((snapshots volume.volumeId).head?) volume acceptableStartTime tagValue =
      ([], .upToDate) := by
    rw [hlat]
    simp [createNewEBSSnapshot, hfresh, hstate]
  simp [processTagMatch, hup]

/-- Claim C8 witness: a volume whose latest snapshot is fresh — the
evaluation is exactly the sweep over both of its snapshots. -/
theorem c8_witness :
    processTagMatch (fun _ => true) (fun _ => true)
        (fun _ => [⟨"snap-1", "vol-1", 100, "ok"⟩, ⟨"snap-0", "vol-1", 1, "ok"⟩])
        ⟨"vol-1", [⟨"k", "v"⟩]⟩ 50 40 "v" =
      (sweepVolume (fun _ => true)
        [⟨"snap-1", "vol-1", 100, "ok"⟩, ⟨"snap-0", "vol-1", 1, "ok"⟩]
        ⟨"vol-1", [⟨"k", "v"⟩]⟩ 40 "v", false) :=
  c8_sweep_decoupled (fun _ => true) (fun _ => true)
    (fun _ => [⟨"snap-1", "vol-1", 100, "ok"⟩, ⟨"snap-0", "vol-1", 1, "ok"⟩])
    ⟨"vol-1", [⟨"k", "v"⟩]⟩ 50 40 "v" ⟨"snap-1", "vol-1", 100, "ok"⟩ rfl
    (by decide) (by decide)

/-
Claim C9.
-/

/-- Claim C9 (code bug): with both fetches succeeding, one rule, and one
matched volume with no snapshots whose creation succeeds, the cycle emits
the create call and then panics — `WatchSnapshots` never returns, instead
of returning nil as the failure-isolation design prescribes. When every
mutation call fails instead, the cycle does return nil. -/
theorem c9_panic_instead_of_nil :
    WatchSnapshots (fun _ => true) (fun _ => true)
        (.ok [⟨"vol-1", [⟨"backup", "yes"⟩]⟩]) (.ok (fun _ => []))
        [⟨⟨"backup", "yes"⟩, 3600, 336⟩] 10000000 =
      ([.createCall "vol-1"], .panicked) ∧
    WatchSnapshots (fun _ => false) (fun _ => false)
        (.ok [⟨"vol-1", [⟨"backup", "yes"⟩]⟩])
        (.ok (fun _ => [⟨"snap-1", "vol-1", 1, "ok"⟩]))
        [⟨⟨"backup", "yes"⟩, 3600, 336⟩] 10000000 =
      ([.createCall "vol-1", .errInc "yes"], .ok) := by
  exact ⟨by decide, by decide⟩

/-
Claim C10.
-/

/-- Claim C10 counterexample: a volume carrying the matching pair twice but
with no prior snapshot and a succeeding `CreateSnapshot` call — the first
evaluation panics (the nil dereference of watcher.go line 104), so the tag
loop emits a single create call and aborts: the body is not executed once
per matching occurrence (one call, not two), refuting the claim as stated. -/
theorem c10_counterexample :
    (([⟨"k", "v"⟩, ⟨"k", "v"⟩] : List Tag).countP
        (fun t => t.key == "k" && t.value == "v")) = 2 ∧
    processTags (fun _ => true) (fun _ => true) (fun _ => [])
        ⟨"vol-1", [⟨"k", "v"⟩, ⟨"k", "v"⟩]⟩ 5 0 "k" "v" [⟨"k", "v"⟩, ⟨"k", "v"⟩] =
      ([.createCall "vol-1"], true) ∧
    (processTags (fun _ => true) (fun _ => true) (fun _ => [])
        ⟨"vol-1", [⟨"k", "v"⟩, ⟨"k", "v"⟩]⟩ 5 0 "k" "v"
        [⟨"k", "v"⟩, ⟨"k", "v"⟩]).1.countP Event.isCreateCall ≠ 2 := by
  exact ⟨by decide, by decide, by decide⟩

/-- Claim C10 (amended): the matched-tag body runs once per matching tag
occurrence, not once per volume, provided no evaluation panics: when the
evaluation does not panic (panic occurs exactly on the no-prior-snapshot
create-success input), the trace of the volume's tag loop is the
evaluation's trace repeated once for each tag whose key and value equal the
rule's; a panicking evaluation aborts the loop at its first matching
occurrence. -/
theorem c10_once_per_tag_occurrence (createOk removeOk : String → Bool)
    (snapshots : String → List Snap) (volume : Volume)
    (acceptableStartTime retentionStartDate : Int) (key val : String)
    (tags : List Tag)
    (hnopanic : (processTagMatch createOk removeOk snapshots volume acceptableStartTime
      retentionStartDate val).2 = false) :
    processTags createOk removeOk snapshots volume acceptableStartTime retentionStartDate
        key val tags =
      ((List.replicate (tags.countP fun t => t.key == key && t.value == val)
          (processTagMatch createOk removeOk snapshots volume acceptableStartTime
            retentionStartDate val).1).flatten,
       false) := by
  induction tags with
  | nil => rfl
  | cons t rest ih =>
    obtain ⟨tk, tv⟩ := t
    simp only [processTags, List.countP_cons]
    by_cases hmatch : (tk == key && tv == val) = true
    · have hand := (Bool.and_eq_true _ _).mp hmatch
      have hkey : tk = key := eq_of_beq hand.1
      have hval : tv = val := eq_of_beq hand.2
      subst hkey
      subst hval
      simp [hnopanic, ih, List.replicate_succ, List.flatten_cons]
    · simp only [hmatch]
      simpa using ih

/-- Claim C10 witness: a volume carrying the matching pair twice — the tag
loop's trace is two copies of the single evaluation's trace. -/
theorem c10_witness :
    processTags (fun _ => true) (fun _ => true)
        (fun _ => [⟨"snap-1", "vol-1", 0, "ok"⟩]) ⟨"vol-1", [⟨"k", "v"⟩, ⟨"k", "v"⟩]⟩
        5 0 "k" "v" [⟨"k", "v"⟩, ⟨"k", "v"⟩] =
      ((List.replicate 2
          (processTagMatch (fun _ => true) (fun _ => true)
            (fun _ => [⟨"snap-1", "vol-1", 0, "ok"⟩])
            ⟨"vol-1", [⟨"k", "v"⟩, ⟨"k", "v"⟩]⟩ 5 0 "v").1).flatten,
       false) := by
  have h := c10_once_per_tag_occurrence (fun _ => true) (fun _ => true)
    (fun _ => [⟨"snap-1", "vol-1", 0, "ok"⟩]) ⟨"vol-1", [⟨"k", "v"⟩, ⟨"k", "v"⟩]⟩
    5 0 "k" "v" [⟨"k", "v"⟩, ⟨"k", "v"⟩] (by decide)
  simpa using h

end EbsSnapshotter
